import Mathlib

/-
  Verification of the Plyr overlay plugin (src/js/plugins/overlay.js).

  The geometry is embedded in exact rational arithmetic (ℚ stands in for JS
  doubles; every quantity the claims mention is reached by +, -, *, / on
  small inputs, where JS doubles and ℚ agree on the stated (in)equalities).
  The stateful part of the class is embedded as explicit state passing over
  a `World` record that also tracks the browser's pending animation-frame /
  video-frame-callback registrations, so that cancellation can be observed.
-/

namespace Overlay

/-- The rectangle record `{x, y, w, h}` returned by `getVideoRect`. -/
structure Rect where
  x : ℚ
  y : ℚ
  w : ℚ
  h : ℚ
deriving DecidableEq

/-- Shallow embedding of the body of `Overlay.getVideoRect`
(overlay.js lines 163-195), given the wrapper bounding box `cw × ch` and the
media element's intrinsic `videoWidth` / `videoHeight`; the value `0` encodes
JS-falsy zero/unknown intrinsic dimensions, which the source replaces by the
defaults `1920` / `1080` via `||`. -/
def getVideoRect (cw ch videoWidth videoHeight : ℚ) : Rect :=
  let vw := if videoWidth = 0 then 1920 else videoWidth
  let vh := if videoHeight = 0 then 1080 else videoHeight
  if vw = 0 ∨ vh = 0 then ⟨0, 0, cw, ch⟩
  else
    let videoRatio := vw / vh
    let containerRatio := cw / ch
    if containerRatio > videoRatio then
      ⟨(cw - ch * videoRatio) / 2, 0, ch * videoRatio, ch⟩
    else
      ⟨0, (ch - cw / videoRatio) / 2, cw, cw / videoRatio⟩

/-- The rectangle `r` lies inside the container `[0, cw] × [0, ch]`. -/
def rectWithin (r : Rect) (cw ch : ℚ) : Prop :=
  0 ≤ r.x ∧ 0 ≤ r.y ∧ r.x + r.w ≤ cw ∧ r.y + r.h ≤ ch

instance (r : Rect) (cw ch : ℚ) : Decidable (rectWithin r cw ch) := by
  unfold rectWithin; infer_instance

/-- With nonzero intrinsic dimensions the `||` defaults and the dead
zero-guard of `getVideoRect` disappear, leaving the two letterbox branches. -/
theorem getVideoRect_of_ne_zero (cw ch vw vh : ℚ) (hvw : vw ≠ 0) (hvh : vh ≠ 0) :
    getVideoRect cw ch vw vh =
      if cw / ch > vw / vh then
        ⟨(cw - ch * (vw / vh)) / 2, 0, ch * (vw / vh), ch⟩
      else
        ⟨0, (ch - cw / (vw / vh)) / 2, cw, cw / (vw / vh)⟩ := by
  rw [getVideoRect]
  simp [hvw, hvh]

/-- C1 counterexample: with container 800 × 800 and both intrinsic content
dimensions zero/unknown, `getVideoRect` does NOT return the full container
rectangle `{0, 0, 800, 800}`; it substitutes the defaults 1920 × 1080 and
returns the 16:9 letterbox rectangle `{0, 175, 800, 450}`. -/
theorem C1_counterexample :
    getVideoRect 800 800 0 0 = ⟨0, 175, 800, 450⟩ ∧
    getVideoRect 800 800 0 0 ≠ ⟨0, 0, 800, 800⟩ := by
  constructor
  · norm_num [getVideoRect]
  · norm_num [getVideoRect]

/-- The rectangle of `getVideoRect` (at nonzero content dimensions) equals
the full container rectangle exactly when the container ratio equals the
content ratio. -/
theorem getVideoRect_full_iff (cw ch vw vh : ℚ) (hcw : 0 < cw) (hch : 0 < ch)
    (hvw : 0 < vw) (hvh : 0 < vh) :
    getVideoRect cw ch vw vh = ⟨0, 0, cw, ch⟩ ↔ cw / ch = vw / vh := by
  rw [getVideoRect_of_ne_zero cw ch vw vh hvw.ne' hvh.ne']
  constructor
  · intro h
    by_cases hgt : cw / ch > vw / vh
    · rw [if_pos hgt] at h
      have hw : ch * (vw / vh) = cw := congrArg Rect.w h
      rw [← hw]
      exact mul_div_cancel_left₀ _ hch.ne'
    · rw [if_neg hgt] at h
      have hh : cw / (vw / vh) = ch := congrArg Rect.h h
      rw [div_div_eq_mul_div] at hh
      rw [div_eq_iff hvw.ne'] at hh
      rw [div_eq_div_iff hch.ne' hvh.ne']
      linarith [hh, mul_comm ch vw]
  · intro heq
    have hne : ¬ (cw / ch > vw / vh) := by
      rw [heq]
      exact lt_irrefl _
    rw [if_neg hne]
    have hh : cw / (vw / vh) = ch := by
      rw [div_eq_iff hch.ne'] at heq
      rw [heq]
      exact mul_div_cancel_left₀ _ (div_pos hvw hvh).ne'
    rw [hh]
    norm_num

/-- C1 (amended): when the intrinsic content width or content height is
zero/unknown, the computation does not fail: it substitutes the default for
each missing dimension (1920 for the width, 1080 for the height) and
returns the letterbox rectangle for the substituted dimensions, which
equals the full container rectangle `{0, 0, cw, ch}` exactly when the
container's aspect ratio equals the substituted content ratio. -/
theorem C1_amended (cw ch vwRaw vhRaw : ℚ) (hcw : 0 < cw) (hch : 0 < ch)
    (hvw : 0 ≤ vwRaw) (hvh : 0 ≤ vhRaw) (hz : vwRaw = 0 ∨ vhRaw = 0) :
    getVideoRect cw ch vwRaw vhRaw =
      getVideoRect cw ch (if vwRaw = 0 then 1920 else vwRaw)
        (if vhRaw = 0 then 1080 else vhRaw) ∧
    (getVideoRect cw ch vwRaw vhRaw = ⟨0, 0, cw, ch⟩ ↔
      cw / ch = (if vwRaw = 0 then 1920 else vwRaw) /
        (if vhRaw = 0 then 1080 else vhRaw)) := by
  have hvw' : (0 : ℚ) < if vwRaw = 0 then 1920 else vwRaw := by
    split_ifs with h
    · norm_num
    · exact lt_of_le_of_ne hvw (Ne.symm h)
  have hvh' : (0 : ℚ) < if vhRaw = 0 then 1080 else vhRaw := by
    split_ifs with h
    · norm_num
    · exact lt_of_le_of_ne hvh (Ne.symm h)
  have hsub : getVideoRect cw ch vwRaw vhRaw =
      getVideoRect cw ch (if vwRaw = 0 then 1920 else vwRaw)
        (if vhRaw = 0 then 1080 else vhRaw) := by
    by_cases h1 : vwRaw = 0 <;> by_cases h2 : vhRaw = 0 <;>
      norm_num [getVideoRect, h1, h2]
  refine ⟨hsub, ?_⟩
  rw [hsub]
  exact getVideoRect_full_iff cw ch _ _ hcw hch hvw' hvh'

/-- C2: for positive container and content dimensions, the rectangle from
`getVideoRect` lies within `[0, cw] × [0, ch]`, its width/height ratio equals
the content ratio `vw / vh`, and when the container ratio equals the content
ratio the result is exactly `{0, 0, cw, ch}` (zero offset in both axes). -/
theorem C2_geometry (cw ch vw vh : ℚ) (hcw : 0 < cw) (hch : 0 < ch)
    (hvw : 0 < vw) (hvh : 0 < vh) :
    rectWithin (getVideoRect cw ch vw vh) cw ch ∧
    (getVideoRect cw ch vw vh).w / (getVideoRect cw ch vw vh).h = vw / vh ∧
    (cw / ch = vw / vh → getVideoRect cw ch vw vh = ⟨0, 0, cw, ch⟩) := by
  rw [getVideoRect_of_ne_zero cw ch vw vh hvw.ne' hvh.ne']
  by_cases hgt : cw / ch > vw / vh
  · rw [if_pos hgt]
    have key : ch * (vw / vh) < cw := by
      have hgt' : vw / vh < cw / ch := hgt
      rw [div_lt_div_iff₀ hvh hch] at hgt'
      rw [← mul_div_assoc, div_lt_iff₀ hvh]
      nlinarith
    have hpos : 0 < ch * (vw / vh) := mul_pos hch (div_pos hvw hvh)
    refine ⟨⟨by linarith, le_refl 0, by dsimp; linarith, by dsimp; linarith⟩, ?_, ?_⟩
    · dsimp
      exact mul_div_cancel_left₀ _ hch.ne'
    · intro heq
      rw [heq] at hgt
      exact absurd hgt (lt_irrefl _)
  · rw [if_neg hgt]
    have hle : cw / ch ≤ vw / vh := not_lt.mp hgt
    have key : cw / (vw / vh) ≤ ch := by
      rw [div_le_div_iff₀ hch hvh] at hle
      rw [div_div_eq_mul_div, div_le_iff₀ hvw]
      nlinarith
    have hpos : 0 < cw / (vw / vh) := div_pos hcw (div_pos hvw hvh)
    refine ⟨⟨le_refl 0, by dsimp; linarith, by dsimp; linarith, by dsimp; linarith⟩, ?_, ?_⟩
    · dsimp
      rw [div_div_eq_mul_div]
      exact mul_div_cancel_left₀ _ hcw.ne'
    · intro heq
      have hh : cw / (vw / vh) = ch := by
        rw [← heq, div_div_eq_mul_div]
        exact mul_div_cancel_left₀ _ hcw.ne'
      rw [hh]
      norm_num

/-- Witness for C1_amended at container 800 × 300 with a one-sided
zero/unknown width and known height 720: only the width default 1920 is
substituted, so the relevant ratio is 1920/720. -/
theorem C1_amended_witness :
    ((0 : ℚ) < 800 ∧ (0 : ℚ) < 300 ∧ (0 : ℚ) ≤ 0 ∧ (0 : ℚ) ≤ 720 ∧
     ((0 : ℚ) = 0 ∨ (720 : ℚ) = 0)) ∧
    (getVideoRect 800 300 0 720 =
       getVideoRect 800 300 (if (0 : ℚ) = 0 then 1920 else 0)
         (if (720 : ℚ) = 0 then 1080 else 720) ∧
     (getVideoRect 800 300 0 720 = ⟨0, 0, 800, 300⟩ ↔
       (800 : ℚ) / 300 = (if (0 : ℚ) = 0 then 1920 else 0) /
         (if (720 : ℚ) = 0 then 1080 else 720))) :=
  ⟨⟨by norm_num, by norm_num, by norm_num, by norm_num, by norm_num⟩,
   C1_amended 800 300 0 720 (by norm_num) (by norm_num) (by norm_num)
     (by norm_num) (by norm_num)⟩

/-- Witness for C2_geometry at container 800 × 800, content 1920 × 1080. -/
theorem C2_geometry_witness :
    ((0 : ℚ) < 800 ∧ (0 : ℚ) < 1920 ∧ (0 : ℚ) < 1080) ∧
    (rectWithin (getVideoRect 800 800 1920 1080) 800 800 ∧
     (getVideoRect 800 800 1920 1080).w / (getVideoRect 800 800 1920 1080).h =
       1920 / 1080 ∧
     ((800 : ℚ) / 800 = 1920 / 1080 →
       getVideoRect 800 800 1920 1080 = ⟨0, 0, 800, 800⟩)) :=
  ⟨⟨by norm_num, by norm_num, by norm_num⟩,
   C2_geometry 800 800 1920 1080 (by norm_num) (by norm_num) (by norm_num)
     (by norm_num)⟩

/-!
## Stateful model of the `Overlay` class

The mutable fields of the class relevant to the claims become `OverlayState`.
The browser / host environment a single method call reads (wrapper bounding
box, `devicePixelRatio`, media element and its capabilities, overlay config)
becomes `Env`, treated as constant across the calls a claim composes.
`World` adds what the claims observe: the browser's pending
`requestAnimationFrame` / `requestVideoFrameCallback` registrations (by id),
the log of renderer-callback invocations, and the count of `debug.warn`
calls.  Pixel contents of the canvas (`clearRect`) are not modelled; only
geometry, data flow and scheduling are.
-/

/-- Host environment read by the overlay methods. -/
structure Env where
  wrapperPresent : Bool
  wrapperWidth : ℚ
  wrapperHeight : ℚ
  dpr : ℚ
  mediaPresent : Bool
  hasRequestVFC : Bool
  hasCancelVFC : Bool
  videoWidth : ℚ
  videoHeight : ℚ
  useVideoFrameCallback : Bool
deriving DecidableEq

/-- The mutable fields of the `Overlay` class (constructor, lines 15-42).
The canvas 2D context is represented by its presence and the scale set via
`setTransform`; the renderer slot holds `some f` for a function value
(identified by an opaque id) and `none` for `null`. -/
structure OverlayState where
  canvasPresent : Bool
  ctxPresent : Bool
  canvasWidth : ℤ
  canvasHeight : ℤ
  transform : ℚ
  frameData : Option ℕ
  activeFrameId : Option ℕ
  renderer : Option ℕ
  rafId : Option ℕ
  rvfcId : Option ℕ
  running : Bool
  enabled : Bool
  ready : Bool
deriving DecidableEq

/-- One invocation of the user-supplied renderer callback, recording the
arguments `(frameData, videoRect, activeFrameId)` it received (the drawing
context argument carries no modelled information). -/
structure RenderCall where
  rendererId : ℕ
  payload : Option ℕ
  rect : Rect
  frameId : Option ℕ
deriving DecidableEq

/-- Overlay state plus the observable effects on the browser: pending
scheduling registrations, the renderer-invocation log, the `overlayframe`
event count and the warning count. -/
structure World where
  overlay : OverlayState
  pendingRaf : List ℕ
  pendingRvfc : List ℕ
  nextId : ℕ
  rendered : List RenderCall
  events : ℕ
  warnings : ℕ
deriving DecidableEq

/-- JS `Math.round` on the model's rationals: round half toward +∞. -/
def jsRound (q : ℚ) : ℤ := ⌊q + 1 / 2⌋

/-- The effective `dpr` of `resize` (line 142): `window.devicePixelRatio || 1`. -/
def dprEff (env : Env) : ℚ := if env.dpr = 0 then 1 else env.dpr

/-- `Overlay.getVideoRect` as the method reads the world (lines 159-196):
the wrapper guard of lines 160-161, then the pure computation. -/
def getVideoRectM (env : Env) : Rect :=
  if ¬ env.wrapperPresent then ⟨0, 0, 0, 0⟩
  else getVideoRect env.wrapperWidth env.wrapperHeight env.videoWidth env.videoHeight

/-- `Overlay.render` (lines 299-322): bail out without a context or canvas
or wrapper; clear the canvas (not modelled); if a renderer function is set,
invoke it with the current frame data, video rect and frame id; finally
clear `frameData` and `activeFrameId` unconditionally. -/
def render (env : Env) (w : World) : World :=
  if ¬ (w.overlay.ctxPresent ∧ w.overlay.canvasPresent) then w
  else if ¬ env.wrapperPresent then w
  else
    let w1 :=
      match w.overlay.renderer with
      | some f =>
          { w with rendered := w.rendered ++
              [({ rendererId := f, payload := w.overlay.frameData,
                  rect := getVideoRectM env,
                  frameId := w.overlay.activeFrameId } : RenderCall)] }
      | none => w
    { w1 with overlay :=
        { w1.overlay with frameData := none, activeFrameId := none } }

/-- `Overlay.resize` (lines 135-153): bail out without a canvas or wrapper;
set the canvas pixel resolution to `round(cssSize * dpr)`, set the context
transform to `dpr`, then render immediately. -/
def resize (env : Env) (w : World) : World :=
  if ¬ w.overlay.canvasPresent then w
  else if ¬ env.wrapperPresent then w
  else
    render env
      { w with overlay :=
          { w.overlay with
            canvasWidth := jsRound (env.wrapperWidth * dprEff env),
            canvasHeight := jsRound (env.wrapperHeight * dprEff env),
            transform := dprEff env } }

/-- `Overlay.setFrameData` (lines 278-281). -/
def setFrameData (frameId payload : ℕ) (w : World) : World :=
  { w with overlay :=
      { w.overlay with activeFrameId := some frameId, frameData := some payload } }

/-- A JS value passed to `setRenderer`: a function (with opaque id), `null`,
or any other value (with opaque tag). -/
inductive RendererArg where
  | fn : ℕ → RendererArg
  | nullv : RendererArg
  | invalid : ℕ → RendererArg
deriving DecidableEq

/-- `is.function` on a `RendererArg`. -/
def isFunctionArg : RendererArg → Bool
  | .fn _ => true
  | _ => false

/-- `callback !== null` on a `RendererArg`. -/
def isNonNullArg : RendererArg → Bool
  | .nullv => false
  | _ => true

/-- The value stored in `this.renderer` when the assignment executes. -/
def rendererVal : RendererArg → Option ℕ
  | .fn f => some f
  | _ => none

/-- `Overlay.setRenderer` (lines 287-293): warn and return on a value that
is neither a function nor `null`; otherwise store it. -/
def setRenderer (arg : RendererArg) (w : World) : World :=
  if ¬ isFunctionArg arg ∧ isNonNullArg arg then
    { w with warnings := w.warnings + 1 }
  else
    { w with overlay := { w.overlay with renderer := rendererVal arg } }

/-- Registration step of `Overlay._rafLoop` (lines 244-254): if running,
obtain a fresh id from `requestAnimationFrame`, remember it in `_rafId` and
leave the callback pending.  (The callback body itself is `fireRaf`.) -/
def rafLoopReg (w : World) : World :=
  if ¬ w.overlay.running then w
  else
    { w with
      overlay := { w.overlay with rafId := some w.nextId },
      pendingRaf := w.nextId :: w.pendingRaf,
      nextId := w.nextId + 1 }

/-- Registration step of `Overlay._rvfcLoop` (lines 220-239): if running,
obtain a fresh id from `requestVideoFrameCallback`, remember it in `_rvfcId`
and leave the callback pending.  (The callback body itself is `fireRvfc`.) -/
def rvfcLoopReg (w : World) : World :=
  if ¬ w.overlay.running then w
  else
    { w with
      overlay := { w.overlay with rvfcId := some w.nextId },
      pendingRvfc := w.nextId :: w.pendingRvfc,
      nextId := w.nextId + 1 }

/-- `Overlay._startLoop` (lines 201-215): no-op while running; otherwise set
`_running` and register via the strategy selected once from config and media
capability. -/
def startLoop (env : Env) (w : World) : World :=
  if w.overlay.running then w
  else
    let w1 := { w with overlay := { w.overlay with running := true } }
    if env.useVideoFrameCallback ∧ env.hasRequestVFC then rvfcLoopReg w1
    else rafLoopReg w1

/-- `Overlay._stopLoop` (lines 259-271): clear `_running`; cancel the pending
`requestAnimationFrame` registration if any; cancel the pending
`requestVideoFrameCallback` registration only when the media element is
present and exposes `cancelVideoFrameCallback`. -/
def stopLoop (env : Env) (w : World) : World :=
  let w1 := { w with overlay := { w.overlay with running := false } }
  let w2 :=
    match w1.overlay.rafId with
    | some i =>
        { w1 with
          overlay := { w1.overlay with rafId := none },
          pendingRaf := w1.pendingRaf.filter (fun j => j != i) }
    | none => w1
  match w2.overlay.rvfcId with
  | some i =>
      if env.mediaPresent ∧ env.hasCancelVFC then
        { w2 with
          overlay := { w2.overlay with rvfcId := none },
          pendingRvfc := w2.pendingRvfc.filter (fun j => j != i) }
      else w2
  | none => w2

/-- The browser fires pending `requestAnimationFrame` callback `i`: the
registration is consumed; the loop body (lines 247-251) bails out when not
running, otherwise renders and re-registers. -/
def fireRaf (env : Env) (i : ℕ) (w : World) : World :=
  if i ∈ w.pendingRaf then
    let w1 := { w with pendingRaf := w.pendingRaf.filter (fun j => j != i) }
    if w1.overlay.running then rafLoopReg (render env w1)
    else w1
  else w

/-- The browser fires pending `requestVideoFrameCallback` callback `i`: the
registration is consumed; the callback (lines 223-236) bails out when not
running, otherwise triggers the `overlayframe` event, renders and
re-registers. -/
def fireRvfc (env : Env) (i : ℕ) (w : World) : World :=
  if i ∈ w.pendingRvfc then
    let w1 := { w with pendingRvfc := w.pendingRvfc.filter (fun j => j != i) }
    if w1.overlay.running then
      rvfcLoopReg (render env { w1 with events := w1.events + 1 })
    else w1
  else w

/-- `Overlay.destroy` (lines 343-365): stop the loop, unbind listeners (not
modelled), remove the canvas, and null out the references. -/
def destroy (env : Env) (w : World) : World :=
  let w1 := stopLoop env w
  { w1 with overlay :=
      { w1.overlay with
        canvasPresent := false,
        ctxPresent := false,
        frameData := none,
        activeFrameId := none,
        renderer := none,
        enabled := false,
        ready := false } }

/-!
## Concrete environments and worlds used by counterexamples and witnesses
-/

/-- A representative host environment: 800 × 450 wrapper, dpr 2, media with
both video-frame-callback APIs, 1920 × 1080 intrinsic video. -/
def envA : Env :=
  { wrapperPresent := true, wrapperWidth := 800, wrapperHeight := 450,
    dpr := 2, mediaPresent := true, hasRequestVFC := true,
    hasCancelVFC := true, videoWidth := 1920, videoHeight := 1080,
    useVideoFrameCallback := true }

/-- An attached overlay (canvas and context present) with renderer `7`
registered, loop running, empty frame data slot. -/
def overlayA : OverlayState :=
  { canvasPresent := true, ctxPresent := true, canvasWidth := 1600,
    canvasHeight := 900, transform := 2, frameData := none,
    activeFrameId := none, renderer := some 7, rafId := none,
    rvfcId := none, running := true, enabled := true, ready := true }

/-- A world holding `overlayA` with no pending registrations or effects. -/
def wA : World :=
  { overlay := overlayA, pendingRaf := [], pendingRvfc := [], nextId := 0,
    rendered := [], events := 0, warnings := 0 }

/-- A stopped world: loop not running, no ids held, nothing pending. -/
def stoppedW : World :=
  { overlay := { overlayA with running := false }, pendingRaf := [],
    pendingRvfc := [], nextId := 0, rendered := [], events := 0,
    warnings := 0 }

/-!
## Helper lemmas about `render`
-/

/-- Characterisation of the overlay state after `render`: on the early-out
paths it is unchanged; otherwise only the frame data slot is cleared. -/
theorem render_overlay_eq (env : Env) (v : World) :
    (render env v).overlay =
      if (v.overlay.ctxPresent ∧ v.overlay.canvasPresent) ∧ env.wrapperPresent then
        { v.overlay with frameData := none, activeFrameId := none }
      else v.overlay := by
  rw [render]
  by_cases h1 : v.overlay.ctxPresent ∧ v.overlay.canvasPresent
  · by_cases h2 : env.wrapperPresent
    · cases hr : v.overlay.renderer <;> simp [h1, h2, hr]
    · simp [h1, h2]
  · simp [h1]

/-- `render` never changes the canvas geometry fields. -/
theorem render_geom (env : Env) (v : World) :
    (render env v).overlay.canvasWidth = v.overlay.canvasWidth ∧
    (render env v).overlay.canvasHeight = v.overlay.canvasHeight ∧
    (render env v).overlay.transform = v.overlay.transform := by
  rw [render_overlay_eq]
  split_ifs <;> simp

/-!
## Claims C3 and C4: render dispatch and the frame data channel
-/

/-- C3 counterexample: in world `wA` (renderer `7` registered, frame data
channel EMPTY) a render tick still invokes the renderer callback — it is
called with a `none` payload instead of being skipped, contradicting the
claim that no callback invocation occurs when the channel is empty. -/
theorem C3_counterexample :
    wA.overlay.frameData = none ∧
    (render envA wA).rendered =
      [{ rendererId := 7, payload := none, rect := ⟨0, 0, 800, 450⟩,
         frameId := none }] := by
  constructor
  · rfl
  · norm_num [render, wA, envA, overlayA, getVideoRectM, getVideoRect]

/-- C3 (amended): on a render tick with an attached surface, the
user-supplied draw callback is invoked exactly when a callback is
registered, regardless of whether the frame data channel holds data; when
the channel is empty the callback is invoked with an empty (`none`)
payload rather than skipped. -/
theorem C3_amended (env : Env) (w : World)
    (hctx : w.overlay.ctxPresent = true) (hcv : w.overlay.canvasPresent = true)
    (hw : env.wrapperPresent = true) :
    (w.overlay.renderer = none → (render env w).rendered = w.rendered) ∧
    (∀ f, w.overlay.renderer = some f →
      (render env w).rendered = w.rendered ++
        [{ rendererId := f, payload := w.overlay.frameData,
           rect := getVideoRectM env,
           frameId := w.overlay.activeFrameId }]) := by
  constructor
  · intro hr
    rw [render]
    simp [hctx, hcv, hw, hr]
  · intro f hr
    rw [render]
    simp [hctx, hcv, hw, hr]

/-- Witness for C3_amended at the concrete attached world `wA`. -/
theorem C3_amended_witness :
    (wA.overlay.ctxPresent = true ∧ wA.overlay.canvasPresent = true ∧
     envA.wrapperPresent = true) ∧
    ((wA.overlay.renderer = none → (render envA wA).rendered = wA.rendered) ∧
     (∀ f, wA.overlay.renderer = some f →
       (render envA wA).rendered = wA.rendered ++
         [{ rendererId := f, payload := wA.overlay.frameData,
            rect := getVideoRectM envA,
            frameId := wA.overlay.activeFrameId }])) :=
  ⟨⟨rfl, rfl, rfl⟩, C3_amended envA wA rfl rfl rfl⟩

/-- C4: a render tick on an attached surface always leaves the frame data
slot empty (`frameData` and `activeFrameId` both `none`), whatever the
renderer slot holds; consequently after `setFrameData` the first tick's
callback receives the stored payload and frame id, and the second
consecutive tick's callback receives `none` for both — the channel is
drained exactly once and never replayed. -/
theorem C4_drain (env : Env) (w : World) (fid p : ℕ)
    (hctx : w.overlay.ctxPresent = true) (hcv : w.overlay.canvasPresent = true)
    (hw : env.wrapperPresent = true) :
    ((render env w).overlay.frameData = none ∧
     (render env w).overlay.activeFrameId = none) ∧
    (∀ f, w.overlay.renderer = some f →
      (render env (setFrameData fid p w)).rendered = w.rendered ++
        [{ rendererId := f, payload := some p, rect := getVideoRectM env,
           frameId := some fid }] ∧
      (render env (render env (setFrameData fid p w))).rendered =
        (render env (setFrameData fid p w)).rendered ++
        [{ rendererId := f, payload := none, rect := getVideoRectM env,
           frameId := none }]) := by
  refine ⟨?_, ?_⟩
  · rw [render_overlay_eq]
    simp [hctx, hcv, hw]
  · intro f hr
    constructor
    · rw [render]
      simp [setFrameData, hctx, hcv, hw, hr]
    · rw [render, render]
      simp [setFrameData, hctx, hcv, hw, hr]

/-- Witness for C4_drain: store payload 42 under frame id 9 in `wA` and run
two consecutive ticks. -/
theorem C4_drain_witness :
    (wA.overlay.ctxPresent = true ∧ wA.overlay.canvasPresent = true ∧
     envA.wrapperPresent = true) ∧
    (((render envA wA).overlay.frameData = none ∧
      (render envA wA).overlay.activeFrameId = none) ∧
     (∀ f, wA.overlay.renderer = some f →
       (render envA (setFrameData 9 42 wA)).rendered = wA.rendered ++
         [{ rendererId := f, payload := some 42, rect := getVideoRectM envA,
            frameId := some 9 }] ∧
       (render envA (render envA (setFrameData 9 42 wA))).rendered =
         (render envA (setFrameData 9 42 wA)).rendered ++
         [{ rendererId := f, payload := none, rect := getVideoRectM envA,
            frameId := none }])) :=
  ⟨⟨rfl, rfl, rfl⟩, C4_drain envA wA 9 42 rfl rfl rfl⟩

/-!
## Claims C5 and C6: scheduler start/stop and cancellation
-/

/-- C5: from a stopped state with no pending registration, starting the loop
twice in a row equals starting it once and leaves exactly one pending
scheduling registration (for whichever strategy was selected); stopping the
loop while stopped with nothing pending is a no-op. -/
theorem C5_start_stop (env : Env) (w : World)
    (hrun : w.overlay.running = false)
    (hraf : w.overlay.rafId = none) (hrvfc : w.overlay.rvfcId = none)
    (hpr : w.pendingRaf = []) (hpv : w.pendingRvfc = []) :
    startLoop env (startLoop env w) = startLoop env w ∧
    (startLoop env w).pendingRaf.length +
      (startLoop env w).pendingRvfc.length = 1 ∧
    stopLoop env w = w := by
  obtain ⟨o, pr, pv, ni, rd, ev, wr⟩ := w
  obtain ⟨c1, c2, c3, c4, c5, c6, c7, c8, c9, c10, c11, c12, c13⟩ := o
  dsimp only at hrun hraf hrvfc hpr hpv
  subst hrun hraf hrvfc hpr hpv
  refine ⟨?_, ?_, ?_⟩
  · by_cases hsel : env.useVideoFrameCallback ∧ env.hasRequestVFC
    · simp [startLoop, rvfcLoopReg, hsel]
    · simp [startLoop, rafLoopReg, hsel]
  · by_cases hsel : env.useVideoFrameCallback ∧ env.hasRequestVFC
    · simp [startLoop, rvfcLoopReg, hsel]
    · simp [startLoop, rafLoopReg, hsel]
  · simp [stopLoop]

/-- Witness for C5_start_stop at a stopped, registration-free world. -/
theorem C5_start_stop_witness :
    ((stoppedW.overlay.running = false ∧ stoppedW.overlay.rafId = none ∧
      stoppedW.overlay.rvfcId = none) ∧
     stoppedW.pendingRaf = [] ∧ stoppedW.pendingRvfc = []) ∧
    (startLoop envA (startLoop envA stoppedW) = startLoop envA stoppedW ∧
     (startLoop envA stoppedW).pendingRaf.length +
       (startLoop envA stoppedW).pendingRvfc.length = 1 ∧
     stopLoop envA stoppedW = stoppedW) :=
  ⟨⟨⟨rfl, rfl, rfl⟩, rfl, rfl⟩,
   C5_start_stop envA stoppedW rfl rfl rfl rfl rfl⟩

/-- Environment whose media element exposes `requestVideoFrameCallback` but
NOT `cancelVideoFrameCallback`. -/
def env6 : Env :=
  { wrapperPresent := true, wrapperWidth := 800, wrapperHeight := 450,
    dpr := 1, mediaPresent := true, hasRequestVFC := true,
    hasCancelVFC := false, videoWidth := 1920, videoHeight := 1080,
    useVideoFrameCallback := true }

/-- Running world with video-frame callback `5` registered and pending. -/
def w6 : World :=
  { overlay := { overlayA with rvfcId := some 5 }, pendingRaf := [],
    pendingRvfc := [5], nextId := 6, rendered := [], events := 0,
    warnings := 0 }

/-- C6 counterexample: when the media element does not expose
`cancelVideoFrameCallback` (environment `env6`), `_stopLoop` — and hence
`destroy` — leaves the pending video-frame-callback registration `5` in
place and keeps its id, instead of explicitly revoking it: the registration
is merely ignored, contradicting the claim that every pending registration
is explicitly revoked via the cancellation API. -/
theorem C6_counterexample :
    (stopLoop env6 w6).pendingRvfc = [5] ∧
    (stopLoop env6 w6).overlay.rvfcId = some 5 ∧
    (destroy env6 w6).pendingRvfc = [5] := by
  refine ⟨?_, ?_, ?_⟩ <;> simp [stopLoop, destroy, env6, w6, overlayA]

/-- `fireRaf` cannot add renderer invocations once the running flag is
down: the consumed callback bails out before rendering. -/
theorem fireRaf_rendered_stopped (env : Env) (i : ℕ) (v : World)
    (h : v.overlay.running = false) :
    (fireRaf env i v).rendered = v.rendered := by
  by_cases h1 : i ∈ v.pendingRaf <;> simp [fireRaf, h, h1]

/-- `fireRvfc` cannot add renderer invocations once the running flag is
down: the consumed callback bails out before rendering. -/
theorem fireRvfc_rendered_stopped (env : Env) (i : ℕ) (v : World)
    (h : v.overlay.running = false) :
    (fireRvfc env i v).rendered = v.rendered := by
  by_cases h1 : i ∈ v.pendingRvfc <;> simp [fireRvfc, h, h1]

/-- The running flag is down after `stopLoop`. -/
theorem stopLoop_not_running (env : Env) (w : World) :
    (stopLoop env w).overlay.running = false := by
  cases h1 : w.overlay.rafId <;> cases h2 : w.overlay.rvfcId <;>
      simp only [stopLoop, h1, h2] <;> (try split_ifs) <;> rfl

/-- The running flag is down after `destroy`. -/
theorem destroy_not_running (env : Env) (w : World) :
    (destroy env w).overlay.running = false := by
  rw [destroy]
  exact stopLoop_not_running env w

/-- C6 (amended): after `_stopLoop` or `destroy` returns, no render tick
executes — in EVERY environment and state, including when a registration
was left pending because the cancellation API is absent, a pending callback
that still fires finds the running flag cleared and performs no renderer
invocation; the pending `requestAnimationFrame` registration is explicitly
cancelled, and the pending `requestVideoFrameCallback` registration is
explicitly cancelled provided the media element is present and exposes
`cancelVideoFrameCallback` (otherwise, as `C6_counterexample` shows, it is
left pending and merely ignored). -/
theorem C6_amended (env : Env) (w : World) (i : ℕ) :
    ((fireRaf env i (stopLoop env w)).rendered = (stopLoop env w).rendered ∧
     (fireRvfc env i (stopLoop env w)).rendered = (stopLoop env w).rendered ∧
     (fireRaf env i (destroy env w)).rendered = (destroy env w).rendered ∧
     (fireRvfc env i (destroy env w)).rendered = (destroy env w).rendered) ∧
    (∀ j, w.overlay.rafId = some j → j ∉ (stopLoop env w).pendingRaf) ∧
    (∀ k, w.overlay.rvfcId = some k → env.mediaPresent = true →
      env.hasCancelVFC = true → k ∉ (stopLoop env w).pendingRvfc) := by
  refine ⟨⟨?_, ?_, ?_, ?_⟩, ?_, ?_⟩
  · exact fireRaf_rendered_stopped env i _ (stopLoop_not_running env w)
  · exact fireRvfc_rendered_stopped env i _ (stopLoop_not_running env w)
  · exact fireRaf_rendered_stopped env i _ (destroy_not_running env w)
  · exact fireRvfc_rendered_stopped env i _ (destroy_not_running env w)
  · intro j hj
    cases hrvfc : w.overlay.rvfcId <;>
      simp only [stopLoop, hj, hrvfc] <;>
      (try split_ifs) <;>
      simp [List.mem_filter]
  · intro k hk hmp hcan
    cases hraf : w.overlay.rafId <;>
      simp only [stopLoop, hraf, hk] <;>
      simp [hmp, hcan, List.mem_filter]

/-- Witness for C6_amended in the environment WITHOUT
`cancelVideoFrameCallback` (`env6`) at the world `w6` whose video-frame
registration 5 stays pending after `_stopLoop`: firing it still renders
nothing. -/
theorem C6_amended_witness :
    ((fireRaf env6 5 (stopLoop env6 w6)).rendered =
       (stopLoop env6 w6).rendered ∧
     (fireRvfc env6 5 (stopLoop env6 w6)).rendered =
       (stopLoop env6 w6).rendered ∧
     (fireRaf env6 5 (destroy env6 w6)).rendered =
       (destroy env6 w6).rendered ∧
     (fireRvfc env6 5 (destroy env6 w6)).rendered =
       (destroy env6 w6).rendered) ∧
    (∀ j, w6.overlay.rafId = some j → j ∉ (stopLoop env6 w6).pendingRaf) ∧
    (∀ k, w6.overlay.rvfcId = some k → env6.mediaPresent = true →
      env6.hasCancelVFC = true → k ∉ (stopLoop env6 w6).pendingRvfc) :=
  C6_amended env6 w6 5

/-!
## Claims C7, C8, C10: resize and the surface state
-/

/-- C7: after `resize` on an attached surface, the canvas pixel resolution
is `round(logicalSize * densityScale)` in each axis, with the logical size
read from the current wrapper bounding box and the density scale from the
current device pixel ratio (defaulted to 1 when falsy); the context
transform holds that same scale. -/
theorem C7_surface (env : Env) (w : World)
    (hcv : w.overlay.canvasPresent = true) (hw : env.wrapperPresent = true) :
    (resize env w).overlay.canvasWidth =
      jsRound (env.wrapperWidth * dprEff env) ∧
    (resize env w).overlay.canvasHeight =
      jsRound (env.wrapperHeight * dprEff env) ∧
    (resize env w).overlay.transform = dprEff env := by
  rw [resize]
  rw [if_neg (by simp [hcv]), if_neg (by simp [hw])]
  rw [render_overlay_eq]
  split_ifs <;> simp

/-- Witness for C7_surface at the attached world `wA` in `envA`. -/
theorem C7_surface_witness :
    (wA.overlay.canvasPresent = true ∧ envA.wrapperPresent = true) ∧
    ((resize envA wA).overlay.canvasWidth =
       jsRound (envA.wrapperWidth * dprEff envA) ∧
     (resize envA wA).overlay.canvasHeight =
       jsRound (envA.wrapperHeight * dprEff envA) ∧
     (resize envA wA).overlay.transform = dprEff envA) :=
  ⟨⟨rfl, rfl⟩, C7_surface envA wA rfl rfl⟩

/-- C8: `resize` is idempotent on the whole overlay state — in particular
on the surface state (pixel width, pixel height, transform) — when the
environment (wrapper box and device pixel ratio) is unchanged between the
two calls; moreover the two resize-triggered renders compute the identical
visible rectangle `getVideoRectM env` (a pure function of that
environment), as the invocation log records. -/
theorem C8_resize_idempotent (env : Env) (w : World) :
    (resize env (resize env w)).overlay = (resize env w).overlay ∧
    (∀ f, w.overlay.renderer = some f → w.overlay.ctxPresent = true →
      w.overlay.canvasPresent = true → env.wrapperPresent = true →
      (resize env (resize env w)).rendered = w.rendered ++
        [{ rendererId := f, payload := w.overlay.frameData,
           rect := getVideoRectM env,
           frameId := w.overlay.activeFrameId },
         { rendererId := f, payload := none, rect := getVideoRectM env,
           frameId := none }]) := by
  constructor
  · by_cases hc : w.overlay.canvasPresent
    · by_cases hw : env.wrapperPresent
      · by_cases hctx : w.overlay.ctxPresent
        · cases hr : w.overlay.renderer <;>
            simp [resize, render, hc, hw, hctx, hr]
        · simp [resize, render, hc, hw, hctx]
      · simp [resize, hw]
    · simp [resize, hc]
  · intro f hr hctx hcv hw
    simp [resize, render, hcv, hctx, hw, hr]

/-- Witness for C8_resize_idempotent at the attached world `wA` in `envA`. -/
theorem C8_resize_idempotent_witness :
    (resize envA (resize envA wA)).overlay = (resize envA wA).overlay ∧
    (∀ f, wA.overlay.renderer = some f → wA.overlay.ctxPresent = true →
      wA.overlay.canvasPresent = true → envA.wrapperPresent = true →
      (resize envA (resize envA wA)).rendered = wA.rendered ++
        [{ rendererId := f, payload := wA.overlay.frameData,
           rect := getVideoRectM envA,
           frameId := wA.overlay.activeFrameId },
         { rendererId := f, payload := none, rect := getVideoRectM envA,
           frameId := none }]) :=
  C8_resize_idempotent envA wA

/-!
## Claim C9: setRenderer validation
-/

/-- C9: `setRenderer` with any value that is neither a function nor `null`
reports one configuration warning and leaves the overlay state — in
particular the previously registered callback — completely unchanged
(the embedding is total, so no exception reaches the host); a function
value or `null` replaces the active callback. -/
theorem C9_setRenderer (w : World) (t f : ℕ) :
    ((setRenderer (.invalid t) w).overlay = w.overlay ∧
     (setRenderer (.invalid t) w).overlay.renderer = w.overlay.renderer ∧
     (setRenderer (.invalid t) w).warnings = w.warnings + 1) ∧
    (setRenderer (.fn f) w).overlay.renderer = some f ∧
    (setRenderer (.nullv) w).overlay.renderer = none := by
  refine ⟨⟨?_, ?_, ?_⟩, ?_, ?_⟩ <;>
    simp [setRenderer, isFunctionArg, isNonNullArg, rendererVal]

/-!
## Claim C10: resize consumes pending frame data
-/

/-- C10: on an attached surface, a payload stored via `setFrameData` just
before `resize` is delivered to the immediate render that `resize`
triggers, and the frame data slot is empty when `resize` returns — the
payload can never reach the next scheduled tick. -/
theorem C10_resize_consumes (env : Env) (w : World) (fid p f : ℕ)
    (hcv : w.overlay.canvasPresent = true)
    (hctx : w.overlay.ctxPresent = true)
    (hw : env.wrapperPresent = true) (hf : w.overlay.renderer = some f) :
    ((resize env (setFrameData fid p w)).overlay.frameData = none ∧
     (resize env (setFrameData fid p w)).overlay.activeFrameId = none) ∧
    (resize env (setFrameData fid p w)).rendered = w.rendered ++
      [{ rendererId := f, payload := some p, rect := getVideoRectM env,
         frameId := some fid }] := by
  refine ⟨⟨?_, ?_⟩, ?_⟩ <;>
    simp [resize, render, setFrameData, hcv, hctx, hw, hf]

/-- Witness for C10_resize_consumes: payload 42 under frame id 9 stored in
`wA`, then `resize`. -/
theorem C10_resize_consumes_witness :
    (wA.overlay.canvasPresent = true ∧ wA.overlay.ctxPresent = true ∧
     envA.wrapperPresent = true ∧ wA.overlay.renderer = some 7) ∧
    (((resize envA (setFrameData 9 42 wA)).overlay.frameData = none ∧
      (resize envA (setFrameData 9 42 wA)).overlay.activeFrameId = none) ∧
     (resize envA (setFrameData 9 42 wA)).rendered = wA.rendered ++
       [{ rendererId := 7, payload := some 42, rect := getVideoRectM envA,
          frameId := some 9 }]) :=
  ⟨⟨rfl, rfl, rfl, rfl⟩, C10_resize_consumes envA wA 9 42 7 rfl rfl rfl rfl⟩

end Overlay
